import Mathlib

/-!
Verification development for the github-telemetry repository.

The development shallowly embeds the event-to-telemetry derivation engine:

* `src/shared/models.py` — the pydantic event models, embedded as Lean
  structures together with validators over a small JSON value type that
  mirror `pydantic.BaseModel.model_validate` (required fields must be
  present with the right shape, optional fields take the declared
  defaults).
* `src/frontend/processor.py` — `EventProcessor.process_message`,
  `_process_workflow_run`, `_process_workflow_job` and `get_mdp_name`.
* `src/backend/processor.py` — `EventProcessor._process_workflow_run`,
  `_process_workflow_job`, `_send_workflow_telemetry` and
  `_send_job_telemetry`.
* `src/backend/telemetry.py` — `TelemetryClient._generate_trace_id`,
  including a full executable SHA-256.
* `src/shared/github_signature.py` — `validate_github_signature`,
  including executable HMAC-SHA-256.

Timestamps are modelled as integers (seconds since the epoch); Python
`datetime` subtraction followed by `.total_seconds()` is then exact
integer subtraction.  Python exceptions are modelled explicitly: a code
path on which CPython raises is translated to the value the enclosing
`try/except` handler produces (the processors) or to `Except.error`
(the signature helper, which has no handler).
-/

/-- Minimal JSON value type for webhook payloads.  Numbers are integers,
which is all the embedded payload fields ever carry (ids, counters and
epoch-second timestamps; pydantic parses an integer into a `datetime`
field as epoch seconds). -/
inductive Json where
  | null : Json
  | bool (b : Bool) : Json
  | num (n : Int) : Json
  | str (s : String) : Json
  | arr (items : List Json) : Json
  | obj (fields : List (String × Json)) : Json
deriving Repr

/-- Field lookup in a JSON object; `none` when the value is not an object
or the key is absent (pydantic treats an absent key as "use the default"
for optional fields and as a validation error for required ones). -/
def Json.getField : Json → String → Option Json
  | .obj fields, key => fields.lookup key
  | _, _ => none

/-- Read a JSON value as an integer. -/
def Json.asInt : Json → Option Int
  | .num n => some n
  | _ => none

/-- Read a JSON value as a string. -/
def Json.asStr : Json → Option String
  | .str s => some s
  | _ => none

/-- Required integer field: missing key or wrong shape is a validation
error, exactly as pydantic rejects a payload missing a required field. -/
def Json.reqInt (j : Json) (key : String) : Option Int :=
  (j.getField key).bind Json.asInt

/-- Required string field. -/
def Json.reqStr (j : Json) (key : String) : Option String :=
  (j.getField key).bind Json.asStr

/-- Optional string field with a default (pydantic `field: str = dflt`):
absent key yields the default, a present key must hold a string. -/
def Json.optStr (j : Json) (key : String) (dflt : String) : Option String :=
  match j.getField key with
  | none => some dflt
  | some v => v.asStr

/-- Optional nullable string field (pydantic `field: str | None = None`). -/
def Json.optStrN (j : Json) (key : String) : Option (Option String) :=
  match j.getField key with
  | none => some none
  | some .null => some none
  | some v => (v.asStr).map some

/-- Optional integer field with a default (pydantic `field: int = dflt`). -/
def Json.optInt (j : Json) (key : String) (dflt : Int) : Option Int :=
  match j.getField key with
  | none => some dflt
  | some v => v.asInt

/-- Optional nullable timestamp field (pydantic
`field: datetime | None = None`), with timestamps carried as epoch
seconds. -/
def Json.optTimeN (j : Json) (key : String) : Option (Option Int) :=
  match j.getField key with
  | none => some none
  | some .null => some none
  | some v => (v.asInt).map some

/-- Optional list-of-strings field (pydantic
`field: list[str] = Field(default_factory=list)`). -/
def Json.optStrList (j : Json) (key : String) : Option (List String) :=
  match j.getField key with
  | none => some []
  | some (.arr items) => items.mapM Json.asStr
  | some _ => none

/-- Embeds `Repository` from `src/shared/models.py` (`private` is renamed
`is_private`; `private` is a Lean keyword). -/
structure Repository where
  id : Int
  name : String
  full_name : String
  is_private : Bool := false
  html_url : String := ""
deriving Repr, DecidableEq

/-- Embeds `Sender` from `src/shared/models.py`. -/
structure Sender where
  id : Int
  login : String
  sender_type : String := "User"
deriving Repr, DecidableEq

/-- Embeds `WorkflowRun` from `src/shared/models.py`.  The frontend
processor additionally reads `labels`, `runner_name` and
`runner_group_name` on a run; those fields live in the frontend's own
models module (`src.frontend.models`), which is not part of the sources.
Modelled from the spec: the data model of §3 gives a run an ordered
`labels` list (default empty) and the runner fields are optional, as on
`WorkflowJob`. -/
structure WorkflowRun where
  id : Int
  name : String
  workflow_id : Int
  head_branch : String := ""
  head_sha : String := ""
  status : String
  conclusion : Option String := none
  run_number : Int
  run_attempt : Int := 1
  event : String := ""
  created_at : Option Int := none
  updated_at : Option Int := none
  run_started_at : Option Int := none
  html_url : String := ""
  runner_name : Option String := none
  runner_group_name : Option String := none
  labels : List String := []
deriving Repr, DecidableEq

/-- Embeds `Step` from `src/shared/models.py`. -/
structure Step where
  name : String
  status : String
  conclusion : Option String := none
  number : Int
  started_at : Option Int := none
  completed_at : Option Int := none
deriving Repr, DecidableEq

/-- Embeds `WorkflowJob` from `src/shared/models.py`.  The frontend
processor additionally reads `run_url` on a job; that field lives in the
frontend's own models module (`src.frontend.models`), which is not part
of the sources.  Modelled from the spec: §4.3 has the job attribute set
carry the run URL, an optional string defaulting to empty like the other
URL fields. -/
structure WorkflowJob where
  id : Int
  name : String
  run_id : Int
  workflow_name : String := ""
  status : String
  conclusion : Option String := none
  created_at : Option Int := none
  started_at : Option Int := none
  completed_at : Option Int := none
  html_url : String := ""
  run_url : String := ""
  runner_name : Option String := none
  runner_group_name : Option String := none
  labels : List String := []
  steps : List Step := []
deriving Repr, DecidableEq

/-- Embeds `WorkflowRunEvent` from `src/shared/models.py`. -/
structure WorkflowRunEvent where
  action : String
  workflow_run : WorkflowRun
  repository : Repository
  sender : Sender
deriving Repr, DecidableEq

/-- Embeds `WorkflowJobEvent` from `src/shared/models.py`. -/
structure WorkflowJobEvent where
  action : String
  workflow_job : WorkflowJob
  repository : Repository
  sender : Sender
deriving Repr, DecidableEq

/-- Embeds `QueueMessage` from `src/shared/models.py`. -/
structure QueueMessage where
  event_type : String
  delivery_id : String
  received_at : Int
  payload : Json

/-- Validator mirroring `Repository.model_validate`. -/
def Repository.model_validate (j : Json) : Option Repository := do
  let id ← j.reqInt "id"
  let name ← j.reqStr "name"
  let full_name ← j.reqStr "full_name"
  let is_private ← match j.getField "private" with
    | none => some false
    | some (.bool b) => some b
    | some _ => none
  let html_url ← j.optStr "html_url" ""
  pure { id, name, full_name, is_private, html_url }

/-- Validator mirroring `Sender.model_validate`. -/
def Sender.model_validate (j : Json) : Option Sender := do
  let id ← j.reqInt "id"
  let login ← j.reqStr "login"
  let sender_type ← j.optStr "type" "User"
  pure { id, login, sender_type }

/-- Validator mirroring `WorkflowRun.model_validate`: `id`, `name`,
`workflow_id`, `status` and `run_number` are required, everything else is
optional with the model's default.  (Written as an explicit match chain
rather than a `do` block: the two are definitionally identical for
`Option`, and the chain keeps compilation linear.) -/
def WorkflowRun.model_validate (j : Json) : Option WorkflowRun :=
  match j.reqInt "id" with
  | none => none
  | some id =>
  match j.reqStr "name" with
  | none => none
  | some name =>
  match j.reqInt "workflow_id" with
  | none => none
  | some workflow_id =>
  match j.optStr "head_branch" "" with
  | none => none
  | some head_branch =>
  match j.optStr "head_sha" "" with
  | none => none
  | some head_sha =>
  match j.reqStr "status" with
  | none => none
  | some status =>
  match j.optStrN "conclusion" with
  | none => none
  | some conclusion =>
  match j.reqInt "run_number" with
  | none => none
  | some run_number =>
  match j.optInt "run_attempt" 1 with
  | none => none
  | some run_attempt =>
  match j.optStr "event" "" with
  | none => none
  | some event =>
  match j.optTimeN "created_at" with
  | none => none
  | some created_at =>
  match j.optTimeN "updated_at" with
  | none => none
  | some updated_at =>
  match j.optTimeN "run_started_at" with
  | none => none
  | some run_started_at =>
  match j.optStr "html_url" "" with
  | none => none
  | some html_url =>
  match j.optStrN "runner_name" with
  | none => none
  | some runner_name =>
  match j.optStrN "runner_group_name" with
  | none => none
  | some runner_group_name =>
  match j.optStrList "labels" with
  | none => none
  | some labels =>
  some { id, name, workflow_id, head_branch, head_sha, status, conclusion,
         run_number, run_attempt, event, created_at, updated_at,
         run_started_at, html_url, runner_name, runner_group_name, labels }

/-- Validator mirroring `Step.model_validate`. -/
def Step.model_validate (j : Json) : Option Step := do
  let name ← j.reqStr "name"
  let status ← j.reqStr "status"
  let conclusion ← j.optStrN "conclusion"
  let number ← j.reqInt "number"
  let started_at ← j.optTimeN "started_at"
  let completed_at ← j.optTimeN "completed_at"
  pure { name, status, conclusion, number, started_at, completed_at }

/-- Validator mirroring `WorkflowJob.model_validate` (match chain, see
`WorkflowRun.model_validate`). -/
def WorkflowJob.model_validate (j : Json) : Option WorkflowJob :=
  match j.reqInt "id" with
  | none => none
  | some id =>
  match j.reqStr "name" with
  | none => none
  | some name =>
  match j.reqInt "run_id" with
  | none => none
  | some run_id =>
  match j.optStr "workflow_name" "" with
  | none => none
  | some workflow_name =>
  match j.reqStr "status" with
  | none => none
  | some status =>
  match j.optStrN "conclusion" with
  | none => none
  | some conclusion =>
  match j.optTimeN "created_at" with
  | none => none
  | some created_at =>
  match j.optTimeN "started_at" with
  | none => none
  | some started_at =>
  match j.optTimeN "completed_at" with
  | none => none
  | some completed_at =>
  match j.optStr "html_url" "" with
  | none => none
  | some html_url =>
  match j.optStr "run_url" "" with
  | none => none
  | some run_url =>
  match j.optStrN "runner_name" with
  | none => none
  | some runner_name =>
  match j.optStrN "runner_group_name" with
  | none => none
  | some runner_group_name =>
  match j.optStrList "labels" with
  | none => none
  | some labels =>
  match (match j.getField "steps" with
         | none => some []
         | some (.arr items) => items.mapM Step.model_validate
         | some _ => none) with
  | none => none
  | some steps =>
  some { id, name, run_id, workflow_name, status, conclusion, created_at,
         started_at, completed_at, html_url, run_url, runner_name,
         runner_group_name, labels, steps }

/-- Validator mirroring `WorkflowRunEvent.model_validate`. -/
def WorkflowRunEvent.model_validate (j : Json) : Option WorkflowRunEvent := do
  let action ← j.reqStr "action"
  let workflow_run ← (j.getField "workflow_run").bind WorkflowRun.model_validate
  let repository ← (j.getField "repository").bind Repository.model_validate
  let sender ← (j.getField "sender").bind Sender.model_validate
  pure { action, workflow_run, repository, sender }

/-- Validator mirroring `WorkflowJobEvent.model_validate`. -/
def WorkflowJobEvent.model_validate (j : Json) : Option WorkflowJobEvent := do
  let action ← j.reqStr "action"
  let workflow_job ← (j.getField "workflow_job").bind WorkflowJob.model_validate
  let repository ← (j.getField "repository").bind Repository.model_validate
  let sender ← (j.getField "sender").bind Sender.model_validate
  pure { action, workflow_job, repository, sender }

/-! ## Frontend processor (`src/frontend/processor.py`) -/

/-- Python string operations are modelled on the code-point list
`String.data`, matching CPython semantics (Python strings are code-point
sequences) and keeping every operation structurally recursive.
`strStartsWith s p` is Python `s.startswith(p)`. -/
def strStartsWith (s p : String) : Bool :=
  p.data.isPrefixOf s.data

/-- Python `s[n:]`: drop the first `n` code points. -/
def strDrop (s : String) (n : Nat) : String :=
  String.mk (s.data.drop n)

/-- Fuel-driven worker for `strSplitOn`; the fuel is consumed once per
list element, so `length + 1` fuel never runs out. -/
def listSplitOnFuel (sep : List Char) : Nat → List Char → List (List Char)
  | 0, l => [l]
  | _ + 1, [] => [[]]
  | fuel + 1, c :: rest =>
    if sep.isPrefixOf (c :: rest) then
      [] :: listSplitOnFuel sep fuel (List.drop (sep.length - 1) rest)
    else
      match listSplitOnFuel sep fuel rest with
      | [] => [[c]]
      | seg :: segs => (c :: seg) :: segs

/-- Python `s.split(sep)` for non-empty `sep`: cut at non-overlapping
occurrences of `sep` left to right; a string containing `sep` `k` times
splits into `k + 1` fields. -/
def strSplitOn (s sep : String) : List String :=
  if sep.data = [] then [s]
  else (listSplitOnFuel sep.data (s.data.length + 1) s.data).map String.mk

/-- Attribute value as it sits in the Python attribute dictionary before
the export boundary: the frontend builds `dict[str, Any]` mixing strings,
raw datetimes (possibly `None`) and label lists; string coercion happens
only in `TelemetryClient.export`. -/
inductive AttrVal where
  | str (s : String) : AttrVal
  | time (t : Int) : AttrVal
  | optTime (t : Option Int) : AttrVal
  | strList (l : List String) : AttrVal
deriving Repr, DecidableEq

/-- Renders the Python `str()` of a whole-second `float` duration, e.g.
`str(540.0) = "540.0"`; with integer-second timestamps every computed
duration is a whole number of seconds. -/
def pyFloatStr (n : Int) : String := toString n ++ ".0"

/-- Embeds `MetricValue` (the frontend metric model): `name`, `value`,
`timestamp` and the attribute dictionary.  The timestamp is the
`datetime.now(UTC)` taken at emission, threaded in as `now`. -/
structure MetricValue where
  name : String
  value : Int
  timestamp : Int
  attributes : List (String × AttrVal)
deriving Repr, DecidableEq

/-- The literal label marker scanned for by `get_mdp_name`. -/
def mdpMarker : String := "ManagedDevOps.Pool="

/-- Embeds `EventProcessor.get_mdp_name`: find the first label containing
the marker and take field 1 of its `split` by the marker (Python
`value.split("ManagedDevOps.Pool=")[1]`, the piece between the first and
the second occurrence of the marker); empty string when no label
matches.  The membership test `"ManagedDevOps.Pool=" in value` holds
exactly when the split has at least two fields. -/
def get_mdp_name (labels : List String) : String :=
  match labels.find? (fun value => 2 ≤ (strSplitOn value mdpMarker).length) with
  | some value => (strSplitOn value mdpMarker).getD 1 ""
  | none => ""

/-- The metric built in `_process_workflow_run` (frontend) for a
completed run with `run_started_at = s`, `updated_at = completed_at = u`
and `created_at = c`. -/
def runMetric (now : Int) (event : WorkflowRunEvent) (s u c : Int) : MetricValue :=
  let run := event.workflow_run
  let duration_seconds := u - s
  let queue_duration_seconds := s - c
  { name := "duration_seconds"
    value := duration_seconds
    timestamp := now
    attributes := [
      ("type", .str "workflow_run"),
      ("duration_seconds", .str (pyFloatStr duration_seconds)),
      ("queue_duration_seconds", .str (pyFloatStr queue_duration_seconds)),
      ("created_at", .time c),
      ("started_at", .time s),
      ("completed_at", .time u),
      ("run_id", .str (toString run.id)),
      ("workflow_name", .str run.name),
      ("run_number", .str (toString run.run_number)),
      ("run_attempt", .str (toString run.run_attempt)),
      ("repository_id", .str (toString event.repository.id)),
      ("repository", .str event.repository.name),
      ("repository_full_name", .str event.repository.full_name),
      ("status", .str run.status),
      ("conclusion", .str (run.conclusion.getD "")),
      ("event_trigger", .str run.event),
      ("head_branch", .str run.head_branch),
      ("triggered_by", .str event.sender.login),
      ("action", .str event.action),
      ("runner_name", .str (run.runner_name.getD "")),
      ("runner_group_name", .str (run.runner_group_name.getD "")),
      ("labels", .strList run.labels),
      ("pool_name", .str (get_mdp_name run.labels)),
      ("run_url", .str run.html_url)] }

/-- Embeds the body of `EventProcessor._process_workflow_run` (frontend)
after validation.  The boolean is the function's return value, the list
collects every `MetricValue` handed to `self._telemetry.export`.  When
the completed-run gate holds but `created_at` is `None`, the statement
`run.run_started_at - run.created_at` raises `TypeError`
(`datetime - NoneType`); the handler catches it and returns `False` with
nothing exported. -/
def processRunEvent (now : Int) (event : WorkflowRunEvent) :
    Bool × List MetricValue :=
  let run := event.workflow_run
  match run.run_started_at, run.updated_at with
  | some s, some u =>
    if run.status = "completed" then
      match run.created_at with
      | none => (false, [])
      | some c => (true, [runMetric now event s u c])
    else (true, [])
  | _, _ => (true, [])

/-- Embeds `EventProcessor._process_workflow_run` (frontend) including
the `model_validate` step: a payload pydantic rejects raises, is caught,
and yields `False` with nothing exported. -/
def process_workflow_run (now : Int) (payload : Json) : Bool × List MetricValue :=
  match WorkflowRunEvent.model_validate payload with
  | none => (false, [])
  | some event => processRunEvent now event

/-- The `queue_duration_seconds` local of `_process_workflow_job`
(frontend): initialized to `0`, overwritten with
`started_at - created_at` only when `created_at` is present. -/
def jobQueueDuration (job : WorkflowJob) (s : Int) : Int :=
  match job.created_at with
  | some cr => s - cr
  | none => 0

/-- Python `str(queue_duration_seconds)` for the job metric: the local
is initialized to the int literal `0` (the `: float = 0` annotation
performs no coercion at runtime), so when `created_at` is absent the
exported attribute is `str(0) = "0"`; when `created_at` is present the
local was reassigned `.total_seconds()`, a float, whose `str` for a
whole-second value carries the `.0` suffix. -/
def jobQueueDurationStr (job : WorkflowJob) (s : Int) : String :=
  match job.created_at with
  | some _ => pyFloatStr (jobQueueDuration job s)
  | none => toString (jobQueueDuration job s)

/-- The job-level metric built in `_process_workflow_job` (frontend) when
`started_at = s` and `completed_at = c` are both present.
`duration_seconds` is always the reassigned float here (the metric is
only built inside the duration branch), while the queue attribute is
rendered by `jobQueueDurationStr`. -/
def jobMetric (now : Int) (event : WorkflowJobEvent) (s c : Int) : MetricValue :=
  let job := event.workflow_job
  let duration_seconds := c - s
  { name := "duration_seconds"
    value := duration_seconds
    timestamp := now
    attributes := [
      ("type", .str "workflow_job"),
      ("job_id", .str (toString job.id)),
      ("job_name", .str job.name),
      ("duration_seconds", .str (pyFloatStr duration_seconds)),
      ("queue_duration_seconds", .str (jobQueueDurationStr job s)),
      ("created_at", .optTime job.created_at),
      ("started_at", .time s),
      ("completed_at", .time c),
      ("run_id", .str (toString job.run_id)),
      ("workflow_name", .str job.workflow_name),
      ("repository_id", .str (toString event.repository.id)),
      ("repository", .str event.repository.name),
      ("repository_full_name", .str event.repository.full_name),
      ("status", .str job.status),
      ("conclusion", .str (job.conclusion.getD "")),
      ("action", .str event.action),
      ("runner_name", .str (job.runner_name.getD "")),
      ("runner_group_name", .str (job.runner_group_name.getD "")),
      ("labels", .strList job.labels),
      ("pool_name", .str (get_mdp_name job.labels)),
      ("run_url", .str job.run_url),
      ("job_url", .str job.html_url)] }

/-- The per-step metric of `_process_workflow_job` (frontend): `some`
exactly when both step timestamps are present, mirroring
`if step.started_at and step.completed_at`. -/
def stepMetricOpt (now : Int) (event : WorkflowJobEvent) (step : Step) :
    Option MetricValue :=
  let job := event.workflow_job
  match step.started_at, step.completed_at with
  | some s, some c =>
    let step_duration := c - s
    some
      { name := "duration_seconds"
        value := step_duration
        timestamp := now
        attributes := [
          ("type", .str "workflow_job_step"),
          ("step_id", .str (toString job.id ++ "-" ++ toString step.number)),
          ("step_name", .str step.name),
          ("step_number", .str (toString step.number)),
          ("started_at", .time s),
          ("completed_at", .time c),
          ("duration_seconds", .str (pyFloatStr step_duration)),
          ("run_id", .str (toString job.run_id)),
          ("parent_job_id", .str (toString job.id)),
          ("parent_job_name", .str job.name),
          ("job_id", .str (toString job.id)),
          ("job_name", .str job.name),
          ("workflow_name", .str job.workflow_name),
          ("repository_id", .str (toString event.repository.id)),
          ("repository", .str event.repository.name),
          ("repository_full_name", .str event.repository.full_name),
          ("conclusion", .str (step.conclusion.getD "")),
          ("status", .str step.status),
          ("run_url", .str job.run_url),
          ("job_url", .str job.html_url)] }
  | _, _ => none

/-- Embeds the body of `EventProcessor._process_workflow_job` (frontend)
after validation: one job metric exported when both job timestamps are
present, then one step metric per step with both timestamps (the `for`
loop), then `True`. -/
def processJobEvent (now : Int) (event : WorkflowJobEvent) :
    Bool × List MetricValue :=
  let job := event.workflow_job
  let jobMetrics : List MetricValue :=
    match job.started_at, job.completed_at with
    | some s, some c => [jobMetric now event s c]
    | _, _ => []
  (true, jobMetrics ++ job.steps.filterMap (stepMetricOpt now event))

/-- Embeds `EventProcessor._process_workflow_job` (frontend) including
validation. -/
def process_workflow_job (now : Int) (payload : Json) : Bool × List MetricValue :=
  match WorkflowJobEvent.model_validate payload with
  | none => (false, [])
  | some event => processJobEvent now event

/-- Embeds `EventProcessor.process_message` (frontend): dispatch on
`event_type`, unknown types are a no-op success.  Total by construction:
every exception a branch can raise is caught by the processor's handlers
and turned into `False`, so a boolean always reaches the caller. -/
def process_message (now : Int) (message : QueueMessage) :
    Bool × List MetricValue :=
  if message.event_type = "workflow_run" then
    process_workflow_run now message.payload
  else if message.event_type = "workflow_job" then
    process_workflow_job now message.payload
  else
    (true, [])

/-! ## SHA-256, HMAC and the webhook signature check
(`src/shared/github_signature.py`, `src/backend/telemetry.py`) -/

/-- Truncation to a 32-bit word, the implicit width of every operation in
CPython's `hashlib.sha256`. -/
def w32 (n : Nat) : Nat := n % 4294967296

/-- Right rotation of a 32-bit word. -/
def rotr (n x : Nat) : Nat := w32 ((x >>> n) ||| (x <<< (32 - n)))

/-- Bitwise complement on 32 bits. -/
def bnot32 (x : Nat) : Nat := x ^^^ 4294967295

/-- SHA-256 big sigma-0. -/
def bsig0 (x : Nat) : Nat := rotr 2 x ^^^ rotr 13 x ^^^ rotr 22 x

/-- SHA-256 big sigma-1. -/
def bsig1 (x : Nat) : Nat := rotr 6 x ^^^ rotr 11 x ^^^ rotr 25 x

/-- SHA-256 small sigma-0. -/
def ssig0 (x : Nat) : Nat := rotr 7 x ^^^ rotr 18 x ^^^ (x >>> 3)

/-- SHA-256 small sigma-1. -/
def ssig1 (x : Nat) : Nat := rotr 17 x ^^^ rotr 19 x ^^^ (x >>> 10)

/-- SHA-256 choice function. -/
def sha2ch (x y z : Nat) : Nat := (x &&& y) ^^^ (bnot32 x &&& z)

/-- SHA-256 majority function. -/
def sha2maj (x y z : Nat) : Nat := (x &&& y) ^^^ (x &&& z) ^^^ (y &&& z)

/-- The 64 SHA-256 round constants (FIPS 180-4 §4.2.2, written in
decimal). -/
def K256 : List Nat :=
  [1116352408, 1899447441, 3049323471, 3921009573,
   961987163, 1508970993, 2453635748, 2870763221,
   3624381080, 310598401, 607225278, 1426881987,
   1925078388, 2162078206, 2614888103, 3248222580,
   3835390401, 4022224774, 264347078, 604807628,
   770255983, 1249150122, 1555081692, 1996064986,
   2554220882, 2821834349, 2952996808, 3210313671,
   3336571891, 3584528711, 113926993, 338241895,
   666307205, 773529912, 1294757372, 1396182291,
   1695183700, 1986661051, 2177026350, 2456956037,
   2730485921, 2820302411, 3259730800, 3345764771,
   3516065817, 3600352804, 4094571909, 275423344,
   430227734, 506948616, 659060556, 883997877,
   958139571, 1322822218, 1537002063, 1747873779,
   1955562222, 2024104815, 2227730452, 2361852424,
   2428436474, 2756734187, 3204031479, 3329325298]

/-- Big-endian serialization of a value into `count` bytes. -/
def natToBytesBE (count v : Nat) : List Nat :=
  match count with
  | 0 => []
  | n + 1 => natToBytesBE n (v >>> 8) ++ [v &&& 255]

/-- Group a byte list into big-endian 32-bit words. -/
def toWordsBE : List Nat → List Nat
  | b0 :: b1 :: b2 :: b3 :: rest =>
      (((b0 * 256 + b1) * 256 + b2) * 256 + b3) :: toWordsBE rest
  | _ => []

/-- SHA-256 padding: append `0x80`, zeros up to 56 mod 64, then the
original bit length as 8 big-endian bytes. -/
def padMessage (msg : List Nat) : List Nat :=
  let l := msg.length
  let zeros := (64 - ((l + 9) % 64)) % 64
  msg ++ [128] ++ List.replicate zeros 0 ++ natToBytesBE 8 (8 * l)

/-- Hash state: eight 32-bit chaining words. -/
structure Sha256State where
  s0 : Nat
  s1 : Nat
  s2 : Nat
  s3 : Nat
  s4 : Nat
  s5 : Nat
  s6 : Nat
  s7 : Nat
deriving Repr, DecidableEq

/-- The SHA-256 chaining value before the first block (FIPS 180-4
§5.3.3, in decimal). -/
def sha256Init : Sha256State :=
  ⟨1779033703, 3144134277, 1013904242, 2773480762,
   1359893119, 2600822924, 528734635, 1541459225⟩

/-- Extend a message schedule by `n` further words. -/
def extendSchedule : Nat → List Nat → List Nat
  | 0, w => w
  | n + 1, w =>
    let i := w.length
    let nw := w32 (w.getD (i - 16) 0 + ssig0 (w.getD (i - 15) 0) +
                   w.getD (i - 7) 0 + ssig1 (w.getD (i - 2) 0))
    extendSchedule n (w ++ [nw])

/-- The 64-word message schedule of one 64-byte block. -/
def schedule (block : List Nat) : List Nat :=
  extendSchedule 48 (toWordsBE block)

/-- One SHA-256 compression round on working variables
`(a,b,c,d,e,f,g,h) = (s0,…,s7)` with round constant `ki` and schedule
word `wi`. -/
def compressRound (w : Sha256State) (ki wi : Nat) : Sha256State :=
  let t1 := w32 (w.s7 + bsig1 w.s4 + sha2ch w.s4 w.s5 w.s6 + ki + wi)
  let t2 := w32 (bsig0 w.s0 + sha2maj w.s0 w.s1 w.s2)
  ⟨w32 (t1 + t2), w.s0, w.s1, w.s2, w32 (w.s3 + t1), w.s4, w.s5, w.s6⟩

/-- Compress one 64-byte block into the chaining state. -/
def compressBlock (st : Sha256State) (block : List Nat) : Sha256State :=
  let fin := ((K256.zip (schedule block)).foldl
    (fun w p => compressRound w p.1 p.2) st)
  ⟨w32 (st.s0 + fin.s0), w32 (st.s1 + fin.s1), w32 (st.s2 + fin.s2),
   w32 (st.s3 + fin.s3), w32 (st.s4 + fin.s4), w32 (st.s5 + fin.s5),
   w32 (st.s6 + fin.s6), w32 (st.s7 + fin.s7)⟩

/-- Fuel-driven worker for `chunks64`; each step consumes at least one
element, so `length` fuel never runs out. -/
def chunks64Fuel : Nat → List Nat → List (List Nat)
  | 0, _ => []
  | _ + 1, [] => []
  | fuel + 1, b :: rest => (b :: rest).take 64 :: chunks64Fuel fuel (rest.drop 63)

/-- Split a byte list into 64-byte chunks. -/
def chunks64 (l : List Nat) : List (List Nat) :=
  chunks64Fuel l.length l

/-- Serialize the chaining state, big-endian per word. -/
def stateBytes (st : Sha256State) : List Nat :=
  natToBytesBE 4 st.s0 ++ natToBytesBE 4 st.s1 ++ natToBytesBE 4 st.s2 ++
  natToBytesBE 4 st.s3 ++ natToBytesBE 4 st.s4 ++ natToBytesBE 4 st.s5 ++
  natToBytesBE 4 st.s6 ++ natToBytesBE 4 st.s7

/-- SHA-256 of a byte list, as the 32-byte digest
(`hashlib.sha256(...).digest()`). -/
def sha256 (msg : List Nat) : List Nat :=
  stateBytes ((chunks64 (padMessage msg)).foldl compressBlock sha256Init)

/-- One lowercase hexadecimal digit character (only ever applied to
values below 16). -/
def hexDigit : Nat → Char
  | 0 => '0' | 1 => '1' | 2 => '2' | 3 => '3'
  | 4 => '4' | 5 => '5' | 6 => '6' | 7 => '7'
  | 8 => '8' | 9 => '9' | 10 => 'a' | 11 => 'b'
  | 12 => 'c' | 13 => 'd' | 14 => 'e' | _ => 'f'

/-- Two lowercase hex characters of one byte. -/
def byteToHex (b : Nat) : String :=
  String.mk [hexDigit (b / 16), hexDigit (b % 16)]

/-- Lowercase hex string of a byte list (`bytes.hex()` /
`.hexdigest()`). -/
def hexStr : List Nat → String
  | [] => ""
  | b :: rest => byteToHex b ++ hexStr rest

/-- UTF-8 encoding of one code point. -/
def utf8Bytes (c : Nat) : List Nat :=
  if c < 0x80 then [c]
  else if c < 0x800 then
    [0xC0 ||| (c >>> 6), 0x80 ||| (c &&& 0x3F)]
  else if c < 0x10000 then
    [0xE0 ||| (c >>> 12), 0x80 ||| ((c >>> 6) &&& 0x3F),
     0x80 ||| (c &&& 0x3F)]
  else
    [0xF0 ||| (c >>> 18), 0x80 ||| ((c >>> 12) &&& 0x3F),
     0x80 ||| ((c >>> 6) &&& 0x3F), 0x80 ||| (c &&& 0x3F)]

/-- Python `s.encode("utf-8")`. -/
def strToBytes (s : String) : List Nat :=
  (s.data.map (fun ch => utf8Bytes ch.toNat)).flatten

/-- HMAC-SHA-256 digest (`hmac.new(key, msg, hashlib.sha256).digest()`):
block size 64; a key longer than one block is first hashed; inner pad
`0x36`, outer pad `0x5c`. -/
def hmacSha256 (key msg : List Nat) : List Nat :=
  let k0 := if 64 < key.length then sha256 key else key
  let kp := k0 ++ List.replicate (64 - k0.length) 0
  let ipadKey := kp.map (fun b => b ^^^ 0x36)
  let opadKey := kp.map (fun b => b ^^^ 0x5c)
  sha256 (opadKey ++ sha256 (ipadKey ++ msg))

/-- Hex HMAC-SHA-256 (`.hexdigest()`). -/
def hmacSha256Hex (key msg : List Nat) : String :=
  hexStr (hmacSha256 key msg)

/-- ASCII-only check on a string, as CPython's
`hmac.compare_digest` performs on `str` operands. -/
def isAsciiStr (s : String) : Bool :=
  s.data.all (fun c => c.toNat ≤ 127)

/-- Embeds `hmac.compare_digest` restricted to `str` operands: for two
ASCII-only strings the result is their equality (the constant-time
aspect has no functional content); if either operand contains a
non-ASCII character CPython raises
`TypeError: comparing strings with non-ASCII characters is not
supported`. -/
def compare_digest (a b : String) : Except String Bool :=
  if isAsciiStr a && isAsciiStr b then .ok (a == b)
  else .error "TypeError"

/-- Embeds `validate_github_signature` from
`src/shared/github_signature.py`.  `Except.error` marks the single code
path on which the Python function raises (a non-ASCII signature header
remainder reaching `hmac.compare_digest`); the function body has no
exception handler, so that error propagates to the caller.  Note
`if not signature_header` is also true for the empty string. -/
def validate_github_signature (payload : List Nat)
    (signature_header : Option String) (secret : String) :
    Except String Bool :=
  if secret = "" then .ok true
  else
    match signature_header with
    | none => .ok false
    | some h =>
      if h = "" then .ok false
      else if ¬ strStartsWith h "sha256=" then .ok false
      else
        let expected_signature := strDrop h 7
        let computed_signature := hmacSha256Hex (strToBytes secret) payload
        compare_digest computed_signature expected_signature

/-! ## Backend processor (`src/backend/processor.py`, `src/backend/telemetry.py`) -/

/-- Embeds `WorkflowMetrics` from `src/shared/models.py`. -/
structure WorkflowMetrics where
  workflow_run_id : Int
  workflow_id : Int
  workflow_name : String
  run_number : Int
  run_attempt : Int
  repository_id : Int
  repository_name : String
  repository_full_name : String
  status : String
  conclusion : Option String := none
  created_at : Option Int := none
  started_at : Option Int := none
  completed_at : Option Int := none
  duration_seconds : Option Int := none
  queue_duration_seconds : Option Int := none
  event_trigger : String := ""
  head_branch : String := ""
  head_sha : String := ""
  triggered_by : String := ""
  event_type : String
  action : String
  processed_at : Int
deriving Repr, DecidableEq

/-- Embeds `JobMetrics` from `src/shared/models.py`. -/
structure JobMetrics where
  job_id : Int
  job_name : String
  workflow_run_id : Int
  workflow_name : String
  repository_id : Int
  repository_name : String
  repository_full_name : String
  status : String
  conclusion : Option String := none
  created_at : Option Int := none
  started_at : Option Int := none
  completed_at : Option Int := none
  duration_seconds : Option Int := none
  queue_duration_seconds : Option Int := none
  runner_name : Option String := none
  runner_group_name : Option String := none
  labels : List String := []
  event_type : String
  action : String
  processed_at : Int
  steps : List Step := []
deriving Repr, DecidableEq

/-- Telemetry handed to the Application Insights client by the backend
processor, one constructor per client operation, listed in export order:
`track_workflow_event`, `track_metric`, and a span exported by
`end_span` (carrying the trace identity of its tracer context and its
parent span's name). -/
inductive BEmission where
  | event (name : String) (properties : List (String × String))
      (measurements : List (String × Int)) : BEmission
  | metric (name : String) (value : Int)
      (properties : List (String × String)) : BEmission
  | span (name : String) (traceId : String) (parent : Option String)
      (properties : List (String × String))
      (measurements : List (String × Int)) : BEmission
deriving Repr, DecidableEq

/-- Python `sep.join(xs)`. -/
def strJoin (sep : String) : List String → String
  | [] => ""
  | [x] => x
  | x :: y :: rest => x ++ sep ++ strJoin sep (y :: rest)

/-- Embeds `TelemetryClient._generate_trace_id`
(`src/backend/telemetry.py`): the first 32 hex characters of the SHA-256
of the id string, i.e. `hashlib.sha256(str(id).encode()).hexdigest()[:32]`.
Since every digest byte renders as exactly two hex characters, the first
32 characters of the 64-character hexdigest are the hex rendering of the
first 16 of the 32 digest bytes. -/
def generate_trace_id (workflow_run_id : String) : String :=
  hexStr ((sha256 (strToBytes workflow_run_id)).take 16)

/-- The `duration_seconds` local of the backend
`_process_workflow_run`: present exactly when the run is completed with
both bounds. -/
def backendRunDuration (run : WorkflowRun) : Option Int :=
  match run.run_started_at, run.updated_at with
  | some s, some u => if run.status = "completed" then some (u - s) else none
  | _, _ => none

/-- The `WorkflowMetrics(...)` construction of the backend
`_process_workflow_run`.  Note the source omits `created_at` and
`queue_duration_seconds`, leaving the model defaults (`None`). -/
def buildWorkflowMetrics (now : Int) (message_event_type : String)
    (event : WorkflowRunEvent) : WorkflowMetrics :=
  let run := event.workflow_run
  { workflow_run_id := run.id
    workflow_id := run.workflow_id
    workflow_name := run.name
    run_number := run.run_number
    run_attempt := run.run_attempt
    repository_id := event.repository.id
    repository_name := event.repository.name
    repository_full_name := event.repository.full_name
    status := run.status
    conclusion := run.conclusion
    started_at := run.run_started_at
    completed_at := if run.status = "completed" then run.updated_at else none
    duration_seconds := backendRunDuration run
    event_trigger := run.event
    head_branch := run.head_branch
    head_sha := run.head_sha
    triggered_by := event.sender.login
    event_type := message_event_type
    action := event.action
    processed_at := now }

/-- Embeds `EventProcessor._send_workflow_telemetry` (backend): one
`track_workflow_event` whose measurements carry `duration_seconds` only
when present, followed by one `workflow_duration_seconds` metric under
the same condition. -/
def send_workflow_telemetry (m : WorkflowMetrics) : List BEmission :=
  let properties := [
    ("workflow_run_id", toString m.workflow_run_id),
    ("workflow_id", toString m.workflow_id),
    ("workflow_name", m.workflow_name),
    ("run_number", toString m.run_number),
    ("run_attempt", toString m.run_attempt),
    ("repository_id", toString m.repository_id),
    ("repository_name", m.repository_name),
    ("repository_full_name", m.repository_full_name),
    ("status", m.status),
    ("conclusion", m.conclusion.getD ""),
    ("event_trigger", m.event_trigger),
    ("head_branch", m.head_branch),
    ("triggered_by", m.triggered_by),
    ("action", m.action)]
  let measurements :=
    match m.duration_seconds with
    | some d => [("duration_seconds", d)]
    | none => []
  BEmission.event "WorkflowRun" properties measurements ::
  (match m.duration_seconds with
   | some d =>
     [BEmission.metric "workflow_duration_seconds" d [
       ("workflow_name", m.workflow_name),
       ("repository_full_name", m.repository_full_name),
       ("conclusion", m.conclusion.getD "")]]
   | none => [])

/-- Embeds the backend `EventProcessor._process_workflow_run` including
validation. -/
def backend_process_workflow_run (now : Int) (message_event_type : String)
    (payload : Json) : Bool × List BEmission :=
  match WorkflowRunEvent.model_validate payload with
  | none => (false, [])
  | some event =>
    (true, send_workflow_telemetry (buildWorkflowMetrics now message_event_type event))

/-- The `duration_seconds` local of the backend
`_process_workflow_job`: present exactly when both job bounds are
present; no condition on `status`. -/
def backendJobDuration (job : WorkflowJob) : Option Int :=
  match job.started_at, job.completed_at with
  | some s, some c => some (c - s)
  | _, _ => none

/-- The `JobMetrics(...)` construction of the backend
`_process_workflow_job`.  The source omits `created_at` and
`queue_duration_seconds`, leaving the model defaults (`None`). -/
def buildJobMetrics (now : Int) (message_event_type : String)
    (event : WorkflowJobEvent) : JobMetrics :=
  let job := event.workflow_job
  { job_id := job.id
    job_name := job.name
    workflow_run_id := job.run_id
    workflow_name := job.workflow_name
    repository_id := event.repository.id
    repository_name := event.repository.name
    repository_full_name := event.repository.full_name
    status := job.status
    conclusion := job.conclusion
    started_at := job.started_at
    completed_at := job.completed_at
    duration_seconds := backendJobDuration job
    runner_name := job.runner_name
    runner_group_name := job.runner_group_name
    labels := job.labels
    event_type := message_event_type
    action := event.action
    processed_at := now
    steps := job.steps }

/-- The two per-step emissions of `_send_job_telemetry` for a step with
both timestamps (a step span, immediately ended, and a
`step_duration_seconds` metric); steps missing either timestamp emit
nothing. -/
def stepEmissions (m : JobMetrics) (traceId jobSpanName : String)
    (step : Step) : List BEmission :=
  match step.started_at, step.completed_at with
  | some s, some c =>
    let step_duration := c - s
    [BEmission.span ("WorkflowStep: " ++ step.name) traceId (some jobSpanName)
      [("step_name", step.name),
       ("step_number", toString step.number),
       ("step_status", step.status),
       ("step_conclusion", step.conclusion.getD ""),
       ("job_id", toString m.job_id),
       ("job_name", m.job_name),
       ("workflow_run_id", toString m.workflow_run_id),
       ("workflow_name", m.workflow_name),
       ("repository_id", toString m.repository_id),
       ("repository_name", m.repository_name),
       ("repository_full_name", m.repository_full_name)]
      [("duration_seconds", step_duration)],
     BEmission.metric "step_duration_seconds" step_duration
      [("step_name", step.name),
       ("step_number", toString step.number),
       ("job_id", toString m.job_id),
       ("job_name", m.job_name),
       ("workflow_run_id", toString m.workflow_run_id),
       ("workflow_name", m.workflow_name),
       ("repository_full_name", m.repository_full_name),
       ("conclusion", step.conclusion.getD "")]]
  | _, _ => []

/-- The `properties` dict of `_send_job_telemetry`. -/
def jobSpanProperties (m : JobMetrics) : List (String × String) := [
  ("job_id", toString m.job_id),
  ("job_name", m.job_name),
  ("workflow_run_id", toString m.workflow_run_id),
  ("workflow_name", m.workflow_name),
  ("repository_id", toString m.repository_id),
  ("repository_name", m.repository_name),
  ("repository_full_name", m.repository_full_name),
  ("status", m.status),
  ("conclusion", m.conclusion.getD ""),
  ("runner_name", m.runner_name.getD ""),
  ("runner_group_name", m.runner_group_name.getD ""),
  ("labels", strJoin "," m.labels),
  ("action", m.action)]

/-- The `measurements` dict of `_send_job_telemetry`: `duration_seconds`
only when present. -/
def jobSpanMeasurements (m : JobMetrics) : List (String × Int) :=
  match m.duration_seconds with
  | some d => [("duration_seconds", d)]
  | none => []

/-- The name of the workflow (run-level) span,
`f"WorkflowRun {metrics.workflow_run_id}"`. -/
def workflowSpanName (m : JobMetrics) : String :=
  "WorkflowRun " ++ toString m.workflow_run_id

/-- The name of the job span, `f"WorkflowJob: {metrics.job_name}"`. -/
def jobSpanName (m : JobMetrics) : String :=
  "WorkflowJob: " ++ m.job_name

/-- Embeds `EventProcessor._send_job_telemetry` (backend) in hierarchical
span mode (tracer configured), listing emissions in export order: per
qualifying step a step span (child of the job span) and a
`step_duration_seconds` metric, then the ended job span (child of the
workflow span), then the ended workflow span whose tracer context was
created with `SpanContext(trace_id=self._generate_trace_id(run_id))` —
all three span levels share that context, hence one trace identity —
and finally a `job_duration_seconds` metric when the duration is
present. -/
def send_job_telemetry (m : JobMetrics) : List BEmission :=
  let traceId := generate_trace_id (toString m.workflow_run_id)
  (m.steps.map (stepEmissions m traceId (jobSpanName m))).flatten ++
  [BEmission.span (jobSpanName m) traceId (some (workflowSpanName m))
    (jobSpanProperties m) (jobSpanMeasurements m),
   BEmission.span (workflowSpanName m) traceId none
    [("workflow_run_id", toString m.workflow_run_id)] []] ++
  (match m.duration_seconds with
   | some d =>
     [BEmission.metric "job_duration_seconds" d [
       ("job_name", m.job_name),
       ("workflow_name", m.workflow_name),
       ("repository_full_name", m.repository_full_name),
       ("conclusion", m.conclusion.getD "")]]
   | none => [])

/-- Embeds the backend `EventProcessor._process_workflow_job` including
validation. -/
def backend_process_workflow_job (now : Int) (message_event_type : String)
    (payload : Json) : Bool × List BEmission :=
  match WorkflowJobEvent.model_validate payload with
  | none => (false, [])
  | some event =>
    (true, send_job_telemetry (buildJobMetrics now message_event_type event))

/-! ## Metric Aggregator

Modelled from the spec: the Metric Aggregator of §4.4 — the accumulator
keyed by metric name folding repeated scalar observations into
min/max/sum/count and a running mean — has no implementation under the
available sources (no aggregation code exists in `src/`); the embedding
below follows §4.4 word for word.  Observation values are rationals,
standing in for exact float arithmetic on the small inputs involved. -/

/-- Per-name accumulator state: min, max, sum, count, the representative
value (running mean), every observed value in arrival order, and the
attribute set of the most recent observation. -/
structure AggEntry where
  min : ℚ
  max : ℚ
  sum : ℚ
  count : ℕ
  representative_value : ℚ
  values : List ℚ
  attributes : List (String × String)
deriving Repr, DecidableEq

/-- One observation folded into an optional existing entry: the first
observation sets min = max = sum = representative_value = value and
count = 1; later ones update min/max, add to sum, increment count and
recompute the running mean `sum / count`. -/
def observeEntry (st : Option AggEntry) (v : ℚ)
    (attrs : List (String × String)) : AggEntry :=
  match st with
  | none => ⟨v, v, v, 1, v, [v], attrs⟩
  | some e =>
    let sum := e.sum + v
    let count := e.count + 1
    ⟨min e.min v, max e.max v, sum, count, sum / count,
     e.values ++ [v], attrs⟩

/-- The aggregator: an association list keyed by metric name, in
first-observation order. -/
def aggObserve : List (String × AggEntry) → String → ℚ →
    List (String × String) → List (String × AggEntry)
  | [], name, v, attrs => [(name, observeEntry none v attrs)]
  | (n, e) :: rest, name, v, attrs =>
    if n = name then (n, observeEntry (some e) v attrs) :: rest
    else (n, e) :: aggObserve rest name v attrs

/-- Observing a whole sequence of values under one name, starting from
the empty aggregator. -/
def observeSeq (name : String) (attrs : List (String × String))
    (vs : List ℚ) : List (String × AggEntry) :=
  vs.foldl (fun agg v => aggObserve agg name v attrs) []

/-! ## Test fixtures and claim theorems -/

set_option maxRecDepth 100000

/-- Repository fixture for concrete evaluations. -/
def cRepo : Repository := { id := 1, name := "repo", full_name := "org/repo" }

/-- Sender fixture for concrete evaluations. -/
def cSender : Sender := { id := 2, login := "dev" }

/-- A completed workflow run with `run_started_at` and `updated_at`
present but `created_at` absent. -/
def runNoCreated : WorkflowRunEvent :=
  { action := "completed"
    workflow_run :=
      { id := 101, name := "CI", workflow_id := 7, status := "completed",
        run_number := 12, run_started_at := some 60, updated_at := some 600 }
    repository := cRepo
    sender := cSender }

/-- C1: for every workflow_run event, a `duration_seconds` metric is
emitted iff `status == "completed"` and both `run_started_at` and
`updated_at` are present, with value `updated_at - run_started_at`, and
in every other case processing returns success with no metric.  The
frontend violates the claim: at `runNoCreated` (completed, both bounds
present, `created_at` absent) the gate of the claim holds, yet the
unguarded `run.run_started_at - run.created_at` on line 68 of
`src/frontend/processor.py` raises `TypeError`, so no metric is emitted
and the processor returns `False` rather than emitting the duration. -/
theorem frontend_run_created_at_missing_drops_duration_metric :
    processRunEvent 0 runNoCreated = (false, []) := rfl

/-- A second completed run with both bounds present and `created_at`
absent (distinct fixture for the queue-duration claim). -/
def runNoCreatedQ : WorkflowRunEvent :=
  { action := "completed"
    workflow_run :=
      { id := 202, name := "Deploy", workflow_id := 8, status := "completed",
        run_number := 3, run_started_at := some 1000, updated_at := some 1540 }
    repository := cRepo
    sender := cSender }

/-- C6: the claim states `queue_duration_seconds = run_started_at -
created_at` is computed only when the duration was computed and
`created_at` is present, and that a completed run without `created_at`
yields no queue duration while processing still succeeds.  The code
computes the queue duration unconditionally whenever the duration gate
holds: at `runNoCreatedQ` the subtraction `run_started_at - None` raises
`TypeError`, the handler returns `False`, and the whole event fails
instead of succeeding without a queue duration. -/
theorem frontend_run_queue_duration_unguarded_created_at :
    processRunEvent 0 runNoCreatedQ = (false, []) := rfl

/-- A workflow job with both `started_at` and `completed_at` present but
`created_at` absent, and no steps. -/
def jobNoCreated : WorkflowJobEvent :=
  { action := "completed"
    workflow_job :=
      { id := 7001, name := "build", run_id := 101, status := "completed",
        started_at := some 100, completed_at := some 400 }
    repository := cRepo
    sender := cSender }

/-- C7 counterexample: the claim says a duration whose timestamp pair is
not fully present is reported as absent or unknown, never as zero; in
particular a job without `created_at` never reports a queue duration of
0.  But the frontend job metric for `jobNoCreated` (with `created_at`
absent) carries the attribute `queue_duration_seconds = "0"`: the
`queue_duration_seconds: float = 0` default of
`src/frontend/processor.py` line 135 is never reassigned (the
annotation does not coerce the int literal), and `str(0)` is exported
verbatim. -/
theorem frontend_job_metric_reports_zero_queue_duration :
    (processJobEvent 0 jobNoCreated).2.map
      (fun m => m.attributes.lookup "queue_duration_seconds") =
      [some (.str "0")] := rfl

/-- C7 amended: every emitted metric's value is a duration computed from
a fully-present timestamp pair (run: `updated_at - run_started_at`; job:
`completed_at - started_at`; step: the step's pair) — but the frontend
job metric's `queue_duration_seconds` attribute is reported as `"0"`
(the `str()` of the never-reassigned int default `0`), not as absent,
whenever `created_at` is missing and both job bounds are present. -/
theorem metric_values_use_fully_present_timestamp_pairs (now : Int)
    (revent : WorkflowRunEvent) (jevent : WorkflowJobEvent) :
    (∀ m ∈ (processRunEvent now revent).2,
      ∃ s u, revent.workflow_run.run_started_at = some s ∧
        revent.workflow_run.updated_at = some u ∧ m.value = u - s) ∧
    (∀ m ∈ (processJobEvent now jevent).2,
      (∃ s c, jevent.workflow_job.started_at = some s ∧
        jevent.workflow_job.completed_at = some c ∧ m.value = c - s) ∨
      (∃ step ∈ jevent.workflow_job.steps, ∃ s c,
        step.started_at = some s ∧ step.completed_at = some c ∧
        m.value = c - s)) ∧
    (∀ s c, jevent.workflow_job.started_at = some s →
      jevent.workflow_job.completed_at = some c →
      jevent.workflow_job.created_at = none →
      (jobMetric now jevent s c).attributes.lookup "queue_duration_seconds" =
        some (.str "0")) := by
  refine ⟨?_, ?_, ?_⟩
  · intro m hm
    unfold processRunEvent at hm
    rcases hs : revent.workflow_run.run_started_at with _ | s <;>
      rcases hu : revent.workflow_run.updated_at with _ | u <;>
      simp [hs, hu] at hm
    by_cases hst : revent.workflow_run.status = "completed"
    · rcases hc : revent.workflow_run.created_at with _ | c <;>
        simp [hst, hc] at hm
      exact ⟨s, u, rfl, rfl, by simp [hm, runMetric]⟩
    · simp [hst] at hm
  · intro m hm
    unfold processJobEvent at hm
    rcases List.mem_append.mp hm with hj | hstep
    · rcases hs : jevent.workflow_job.started_at with _ | s <;>
        rcases hc : jevent.workflow_job.completed_at with _ | c <;>
        simp [hs, hc] at hj
      exact Or.inl ⟨s, c, rfl, rfl, by simp [hj, jobMetric]⟩
    · rcases List.mem_filterMap.mp hstep with ⟨step, hmem, hsome⟩
      unfold stepMetricOpt at hsome
      rcases hs : step.started_at with _ | s <;>
        rcases hc : step.completed_at with _ | c <;>
        simp [hs, hc] at hsome
      exact Or.inr ⟨step, hmem, s, c, hs, hc, by simp [← hsome]⟩
  · intro s c _ _ hcr
    simp only [jobMetric, jobQueueDurationStr, jobQueueDuration, hcr]
    rfl

/-- C7 amended witness: at `jobNoCreated` the single emitted metric's
value `300` is `completed_at - started_at` for the fully-present job
pair, per the amended invariant. -/
theorem metric_values_witness :
    ∃ s c, (jobNoCreated.workflow_job.started_at = some s ∧
      jobNoCreated.workflow_job.completed_at = some c ∧
      (jobMetric 0 jobNoCreated 100 400).value = c - s) := by
  have hmem : jobMetric 0 jobNoCreated 100 400 ∈
      (processJobEvent 0 jobNoCreated).2 := by
    show jobMetric 0 jobNoCreated 100 400 ∈ [jobMetric 0 jobNoCreated 100 400]
    exact List.mem_singleton.mpr rfl
  have h := (metric_values_use_fully_present_timestamp_pairs 0
    runNoCreated jobNoCreated).2.1 (jobMetric 0 jobNoCreated 100 400) hmem
  rcases h with ⟨s, c, h1, h2, h3⟩ | ⟨step, hmem', _⟩
  · exact ⟨s, c, h1, h2, h3⟩
  · simp [jobNoCreated] at hmem'

/-- Queue message with an unrecognized event type. -/
def msgIssues : QueueMessage :=
  { event_type := "issues", delivery_id := "d1", received_at := 0,
    payload := .obj [] }

/-- Queue message of a recognized type whose `workflow_run` payload is
missing the required `id`. -/
def msgRunNoId : QueueMessage :=
  { event_type := "workflow_run", delivery_id := "d2", received_at := 0,
    payload := .obj [
      ("action", .str "completed"),
      ("workflow_run", .obj [
        ("name", .str "CI"),
        ("workflow_id", .num 7),
        ("status", .str "completed"),
        ("run_number", .num 4)]),
      ("repository", .obj [
        ("id", .num 1), ("name", .str "repo"),
        ("full_name", .str "org/repo")]),
      ("sender", .obj [("id", .num 2), ("login", .str "dev")])] }

/-- C4: `process_message` returns success with zero metrics for any
unrecognized event type; returns failure with zero metrics when a
recognized event type carries a payload that pydantic validation
rejects (e.g. missing the required `id`); and always returns a boolean
— the embedding is total, mirroring the `try/except` boundary that
converts every exception into `False`. -/
theorem process_message_dispatch (now : Int) (message : QueueMessage) :
    (message.event_type ≠ "workflow_run" →
      message.event_type ≠ "workflow_job" →
      process_message now message = (true, [])) ∧
    (message.event_type = "workflow_run" →
      WorkflowRunEvent.model_validate message.payload = none →
      process_message now message = (false, [])) ∧
    (message.event_type = "workflow_job" →
      WorkflowJobEvent.model_validate message.payload = none →
      process_message now message = (false, [])) := by
  refine ⟨?_, ?_, ?_⟩ <;> intro h1 h2 <;>
    simp [process_message, h1, h2, process_workflow_run, process_workflow_job]

/-- C4 witness: the unknown type `"issues"` is a no-op success, and a
`workflow_run` payload missing `id` is a failure with no metrics. -/
theorem process_message_dispatch_witness :
    process_message 0 msgIssues = (true, []) ∧
    process_message 0 msgRunNoId = (false, []) :=
  ⟨(process_message_dispatch 0 msgIssues).1 (by decide) (by decide),
   (process_message_dispatch 0 msgRunNoId).2.1 rfl rfl⟩

/-- C2: a job `duration_seconds = completed_at - started_at` is computed
iff both bounds are present, with no condition on the job's status (the
status is left fully arbitrary here); and the queue duration
`started_at - created_at` is computed only when the duration was
computed (the frontend's `queue_duration_seconds` assignment sits inside
the duration branch and `jobQueueDuration` is only consulted by
`jobMetric`, through `jobQueueDurationStr`) and `created_at` is present
— otherwise the local keeps its `0` default. -/
theorem job_duration_and_queue_gating (now : Int) (event : WorkflowJobEvent) :
    (∀ s c, event.workflow_job.started_at = some s →
      event.workflow_job.completed_at = some c →
      backendJobDuration event.workflow_job = some (c - s) ∧
      (processJobEvent now event).2 =
        jobMetric now event s c ::
          event.workflow_job.steps.filterMap (stepMetricOpt now event) ∧
      (jobMetric now event s c).value = c - s) ∧
    ((event.workflow_job.started_at = none ∨
      event.workflow_job.completed_at = none) →
      backendJobDuration event.workflow_job = none ∧
      (processJobEvent now event).2 =
        event.workflow_job.steps.filterMap (stepMetricOpt now event)) ∧
    (∀ s cr, event.workflow_job.created_at = some cr →
      jobQueueDuration event.workflow_job s = s - cr) ∧
    (∀ s, event.workflow_job.created_at = none →
      jobQueueDuration event.workflow_job s = 0) := by
  refine ⟨?_, ?_, ?_, ?_⟩
  · intro s c hs hc
    exact ⟨by simp [backendJobDuration, hs, hc],
           by simp [processJobEvent, hs, hc],
           by simp [jobMetric]⟩
  · intro h
    rcases hs : event.workflow_job.started_at with _ | s <;>
      rcases hc : event.workflow_job.completed_at with _ | c <;>
      simp [hs, hc] at h ⊢ <;>
      simp [backendJobDuration, processJobEvent, hs, hc]
  · intro s cr hcr
    simp [jobQueueDuration, hcr]
  · intro s hcr
    simp [jobQueueDuration, hcr]

/-- A fully-timed workflow job (both bounds and `created_at` present). -/
def jobFull : WorkflowJobEvent :=
  { action := "completed"
    workflow_job :=
      { id := 8002, name := "test", run_id := 303, status := "completed",
        created_at := some 50, started_at := some 120,
        completed_at := some 480 }
    repository := cRepo
    sender := cSender }

/-- C2 witness: for `jobFull` the duration `360` is computed from the
present pair and the queue duration is `started_at - created_at = 70`. -/
theorem job_duration_and_queue_gating_witness :
    backendJobDuration jobFull.workflow_job = some 360 ∧
    (jobMetric 0 jobFull 120 480).value = 360 ∧
    jobQueueDuration jobFull.workflow_job 120 = 70 := by
  have h := job_duration_and_queue_gating 0 jobFull
  have h1 := h.1 120 480 rfl rfl
  have h2 := h.2.2.1 120 50 rfl
  exact ⟨h1.1, h1.2.2, h2⟩

/-- A metric is step-tagged when its `type` attribute is
`workflow_job_step`. -/
def isStepTagged (m : MetricValue) : Bool :=
  m.attributes.lookup "type" == some (.str "workflow_job_step")

/-- The job-level metric is never step-tagged. -/
theorem isStepTagged_jobMetric (now : Int) (event : WorkflowJobEvent)
    (s c : Int) : isStepTagged (jobMetric now event s c) = false := rfl

/-- Every metric produced by `stepMetricOpt` is step-tagged. -/
theorem isStepTagged_of_stepMetricOpt (now : Int) (event : WorkflowJobEvent)
    (step : Step) (m : MetricValue)
    (h : stepMetricOpt now event step = some m) : isStepTagged m = true := by
  unfold stepMetricOpt at h
  rcases hs : step.started_at with _ | s <;>
    rcases hc : step.completed_at with _ | c <;> simp [hs, hc] at h
  simp [← h, isStepTagged]

/-- `stepMetricOpt` produces a metric exactly when both step bounds are
present. -/
theorem stepMetricOpt_isSome (now : Int) (event : WorkflowJobEvent)
    (step : Step) : (stepMetricOpt now event step).isSome =
      (step.started_at.isSome && step.completed_at.isSome) := by
  unfold stepMetricOpt
  rcases step.started_at with _ | s <;> rcases step.completed_at with _ | c <;>
    simp

/-- Length of a `filterMap` as a count of productive elements. -/
theorem length_filterMap_eq_length_filter_isSome {α β : Type}
    (f : α → Option β) (l : List α) :
    (l.filterMap f).length = (l.filter (fun a => (f a).isSome)).length := by
  induction l with
  | nil => rfl
  | cons a t ih =>
    rcases hf : f a with _ | b <;>
      simp [List.filterMap_cons, List.filter_cons, hf, ih]

/-- C3: in the frontend job path, exactly one step-tagged
`duration_seconds` metric is emitted per step with both timestamps
present — the step-tagged part of the output is precisely the
`filterMap` over the steps list, its length is the number of
fully-timed steps, each such metric carries `type=workflow_job_step`,
the `job_id-step_number` identity and the value
`completed_at - started_at` — independently of the job's own bounds
(left arbitrary), while steps missing either timestamp produce nothing;
processing always returns success. -/
theorem step_metrics_exactly_one_per_timed_step (now : Int)
    (event : WorkflowJobEvent) :
    (processJobEvent now event).1 = true ∧
    (processJobEvent now event).2.filter isStepTagged =
      event.workflow_job.steps.filterMap (stepMetricOpt now event) ∧
    ((processJobEvent now event).2.filter isStepTagged).length =
      (event.workflow_job.steps.filter
        (fun st => st.started_at.isSome && st.completed_at.isSome)).length ∧
    (∀ step ∈ event.workflow_job.steps,
      (∀ s c, step.started_at = some s → step.completed_at = some c →
        ∃ m, stepMetricOpt now event step = some m ∧
          m.value = c - s ∧
          m.attributes.lookup "type" = some (.str "workflow_job_step") ∧
          m.attributes.lookup "step_id" =
            some (.str (toString event.workflow_job.id ++ "-" ++
              toString step.number))) ∧
      ((step.started_at = none ∨ step.completed_at = none) →
        stepMetricOpt now event step = none)) := by
  have hfilter : (processJobEvent now event).2.filter isStepTagged =
      event.workflow_job.steps.filterMap (stepMetricOpt now event) := by
    unfold processJobEvent
    have hsteps : (event.workflow_job.steps.filterMap
        (stepMetricOpt now event)).filter isStepTagged =
        event.workflow_job.steps.filterMap (stepMetricOpt now event) :=
      List.filter_eq_self.mpr (fun m hm => by
        rcases List.mem_filterMap.mp hm with ⟨step, _, hsome⟩
        exact isStepTagged_of_stepMetricOpt now event step m hsome)
    rcases hs : event.workflow_job.started_at with _ | s <;>
      rcases hc : event.workflow_job.completed_at with _ | c <;>
      simp [hs, hc, List.filter_append, hsteps, isStepTagged_jobMetric]
  refine ⟨rfl, hfilter, ?_, ?_⟩
  · rw [hfilter, length_filterMap_eq_length_filter_isSome]
    congr 1
    apply List.filter_congr
    intro st _
    exact stepMetricOpt_isSome now event st
  · intro step _
    constructor
    · intro s c hs hc
      unfold stepMetricOpt
      rw [hs, hc]
      exact ⟨_, rfl, rfl, rfl, rfl⟩
    · intro h
      unfold stepMetricOpt
      rcases h with h | h
      · rw [h]
      · rw [h]
        rcases step.started_at with _ | s <;> rfl

/-- A job event with one fully-timed step and one step missing its
`completed_at`. -/
def jobWithSteps : WorkflowJobEvent :=
  { action := "completed"
    workflow_job :=
      { id := 9003, name := "ci", run_id := 404, status := "completed",
        created_at := some 100, started_at := some 120,
        completed_at := some 480,
        steps := [
          { name := "checkout", status := "completed", number := 1,
            started_at := some 120, completed_at := some 150 },
          { name := "build", status := "in_progress", number := 2,
            started_at := some 150 } ] }
    repository := cRepo
    sender := cSender }

/-- C3 witness: for `jobWithSteps`, exactly one step-tagged metric is
emitted (for the fully-timed step 1), and the half-timed step 2
produces nothing. -/
theorem step_metrics_witness :
    ((processJobEvent 0 jobWithSteps).2.filter isStepTagged).length = 1 ∧
    stepMetricOpt 0 jobWithSteps
      { name := "build", status := "in_progress", number := 2,
        started_at := some 150 } = none := by
  have h := step_metrics_exactly_one_per_timed_step 0 jobWithSteps
  refine ⟨h.2.2.1.trans (by rfl), ?_⟩
  exact (h.2.2.2 _ (by simp [jobWithSteps])).2 (Or.inr rfl)

/-- Hex digit characters are ASCII. -/
theorem hexDigit_ascii (n : Nat) : (hexDigit n).toNat ≤ 127 := by
  unfold hexDigit
  split <;> decide

/-- Hex strings are ASCII-only. -/
theorem hexStr_ascii (l : List Nat) : isAsciiStr (hexStr l) = true := by
  induction l with
  | nil => rfl
  | cons b t ih =>
    unfold isAsciiStr at ih ⊢
    unfold hexStr
    rw [String.data_append, List.all_append, ih, Bool.and_true]
    simp [byteToHex, hexDigit_ascii]

/-- For ASCII operands, `compare_digest` succeeds with `true` exactly on
equal strings. -/
theorem compare_digest_ok_iff (a b : String) (ha : isAsciiStr a = true)
    (hb : isAsciiStr b = true) :
    (compare_digest a b = .ok true ↔ b = a) := by
  unfold compare_digest
  rw [ha, hb]
  show (Except.ok (a == b) = Except.ok true) ↔ b = a
  constructor
  · intro hok
    exact (beq_iff_eq.mp (Except.ok.inj hok)).symm
  · intro heq
    rw [heq, beq_self_eq_true]

/-- C5 amended: the verifier returns `ok true` for an empty secret
regardless of the header; `ok false` for an absent header or one not
starting with `"sha256="`; and for a well-formed header whose remainder
is ASCII it returns `ok true` exactly when the remainder equals the hex
HMAC-SHA-256 of the payload keyed by the secret.  (The unqualified
"never raises" of the claim fails: a non-ASCII remainder reaches
`hmac.compare_digest` and raises `TypeError`, see the counterexample.) -/
theorem validate_github_signature_characterization
    (payload : List Nat) (signature_header : Option String)
    (secret : String) :
    (secret = "" →
      validate_github_signature payload signature_header secret = .ok true) ∧
    (secret ≠ "" → signature_header = none →
      validate_github_signature payload signature_header secret = .ok false) ∧
    (∀ h, secret ≠ "" → signature_header = some h →
      strStartsWith h "sha256=" = false →
      validate_github_signature payload signature_header secret = .ok false) ∧
    (∀ h, secret ≠ "" → signature_header = some h →
      strStartsWith h "sha256=" = true →
      isAsciiStr (strDrop h 7) = true →
      (validate_github_signature payload signature_header secret = .ok true ↔
        strDrop h 7 = hmacSha256Hex (strToBytes secret) payload)) := by
  refine ⟨?_, ?_, ?_, ?_⟩
  · intro hs
    simp [validate_github_signature, hs]
  · intro hs hh
    simp [validate_github_signature, hs, hh]
  · intro h hs hh hstart
    by_cases hempty : h = ""
    · simp [validate_github_signature, hs, hh, hempty]
    · simp [validate_github_signature, hs, hh, hstart, hempty]
  · intro h hs hh hstart hascii
    have hne : h ≠ "" := by
      intro he
      rw [he] at hstart
      exact absurd hstart (by decide)
    have hstep : validate_github_signature payload signature_header secret =
        compare_digest (hmacSha256Hex (strToBytes secret) payload)
          (strDrop h 7) := by
      simp [validate_github_signature, hs, hh, hne, hstart]
    rw [hstep]
    exact compare_digest_ok_iff _ _ (hexStr_ascii _) hascii

/-- C5 counterexample: the claim says the verifier never raises, but a
header whose remainder contains a non-ASCII character (here `é`) reaches
`hmac.compare_digest(str, str)`, which CPython documents and implements
to raise `TypeError` for non-ASCII `str` operands; the function has no
handler, so the exception propagates to the caller. -/
theorem validate_signature_raises_on_non_ascii_header :
    validate_github_signature (strToBytes "body") (some "sha256=é") "s" =
      .error "TypeError" := by rfl

/-- C5 witness: a correctly signed body verifies (`ok true`), obtained
from the characterization at `secret = "s"`, `body = "body"` and the
genuine `sha256=`-prefixed hex HMAC header. -/
theorem validate_signature_witness :
    validate_github_signature (strToBytes "body")
      (some ("sha256=" ++ hmacSha256Hex (strToBytes "s") (strToBytes "body")))
      "s" = .ok true := by
  have h4 := (validate_github_signature_characterization (strToBytes "body")
    (some ("sha256=" ++ hmacSha256Hex (strToBytes "s") (strToBytes "body")))
    "s").2.2.2
  exact (h4 _ (by decide) rfl (by rfl) (by rfl)).mpr (by rfl)

/-- Follows the claim's words for the pool-name helper (§4.5): the
substring after the first occurrence of the marker — everything that
follows it — within the first label (in list order) containing the
marker; empty when no label contains it.  `suffixAfterFirst` scans for
the first occurrence of `sep` and returns the remainder after it. -/
def suffixAfterFirst (sep : List Char) : List Char → Option (List Char)
  | [] => none
  | c :: rest =>
    if sep.isPrefixOf (c :: rest) then some (List.drop (sep.length - 1) rest)
    else suffixAfterFirst sep rest

/-- The claim's reading of `get_mdp_name`: the full suffix after the
first marker occurrence in the first matching label. -/
def poolNameSpec (labels : List String) : String :=
  match labels.find?
      (fun v => (suffixAfterFirst mdpMarker.data v.data).isSome) with
  | some v =>
    match suffixAfterFirst mdpMarker.data v.data with
    | some suffix => String.mk suffix
    | none => ""
  | none => ""

/-- Splitting never yields the empty list of fields. -/
theorem listSplitOnFuel_ne_nil (sep : List Char) (fuel : Nat)
    (l : List Char) : listSplitOnFuel sep fuel l ≠ [] := by
  cases fuel with
  | zero => simp [listSplitOnFuel]
  | succ n =>
    cases l with
    | nil => simp [listSplitOnFuel]
    | cons c rest =>
      unfold listSplitOnFuel
      split
      · simp
      · split <;> simp

/-- A split with a single field means the separator never occurred: the
field is the whole input. -/
theorem listSplitOnFuel_singleton (sep : List Char) :
    ∀ (fuel : Nat) (x y : List Char),
      listSplitOnFuel sep fuel x = [y] → x = y := by
  intro fuel
  induction fuel with
  | zero =>
    intro x y h
    simp [listSplitOnFuel] at h
    exact h
  | succ n ih =>
    intro x y h
    cases x with
    | nil =>
      simp [listSplitOnFuel] at h
      exact h.symm
    | cons c rest =>
      unfold listSplitOnFuel at h
      by_cases hpre : sep.isPrefixOf (c :: rest)
      · rw [if_pos hpre] at h
        injection h with h1 h2
        exact absurd h2 (listSplitOnFuel_ne_nil sep n _)
      · rw [if_neg hpre] at h
        rcases hsplit : listSplitOnFuel sep n rest with _ | ⟨seg, segs⟩
        · exact absurd hsplit (listSplitOnFuel_ne_nil sep n rest)
        · rw [hsplit] at h
          injection h with h1 h2
          subst h2
          rw [← h1, ih rest seg hsplit]

/-- A split with exactly two fields identifies the suffix after the
first separator occurrence with the second field. -/
theorem listSplitOnFuel_pair (sep : List Char) :
    ∀ (fuel : Nat) (l a b : List Char),
      listSplitOnFuel sep fuel l = [a, b] →
      suffixAfterFirst sep l = some b := by
  intro fuel
  induction fuel with
  | zero =>
    intro l a b h
    simp [listSplitOnFuel] at h
  | succ n ih =>
    intro l a b h
    cases l with
    | nil => simp [listSplitOnFuel] at h
    | cons c rest =>
      unfold listSplitOnFuel at h
      unfold suffixAfterFirst
      by_cases hpre : sep.isPrefixOf (c :: rest)
      · rw [if_pos hpre] at h ⊢
        injection h with h1 h2
        rw [listSplitOnFuel_singleton sep n _ b h2]
      · rw [if_neg hpre] at h ⊢
        rcases hsplit : listSplitOnFuel sep n rest with _ | ⟨seg, segs⟩
        · exact absurd hsplit (listSplitOnFuel_ne_nil sep n rest)
        · rw [hsplit] at h
          injection h with h1 h2
          exact ih rest seg b (by rw [hsplit, h2])

/-- The split has at least two fields exactly when the separator occurs
(when `suffixAfterFirst` succeeds). -/
theorem listSplitOnFuel_two_iff (sep : List Char) :
    ∀ (fuel : Nat) (l : List Char), l.length < fuel →
      (2 ≤ (listSplitOnFuel sep fuel l).length ↔
        (suffixAfterFirst sep l).isSome = true) := by
  intro fuel
  induction fuel with
  | zero => intro l h; omega
  | succ n ih =>
    intro l hlen
    cases l with
    | nil => simp [listSplitOnFuel, suffixAfterFirst]
    | cons c rest =>
      unfold listSplitOnFuel suffixAfterFirst
      by_cases hpre : sep.isPrefixOf (c :: rest)
      · rw [if_pos hpre, if_pos hpre]
        have hpos := List.length_pos.mpr
          (listSplitOnFuel_ne_nil sep n (List.drop (sep.length - 1) rest))
        simp only [List.length_cons, Option.isSome_some]
        constructor
        · intro _; trivial
        · intro _; omega
      · rw [if_neg hpre, if_neg hpre]
        rcases hsplit : listSplitOnFuel sep n rest with _ | ⟨seg, segs⟩
        · exact absurd hsplit (listSplitOnFuel_ne_nil sep n rest)
        · have hrest : rest.length < n := by
            simp at hlen
            omega
          have := ih rest hrest
          rw [hsplit] at this
          simpa using this

/-- `strSplitOn` with the (non-empty) pool marker unfolds to the
fuel-driven worker. -/
theorem strSplitOn_mdp (v : String) :
    strSplitOn v mdpMarker =
      (listSplitOnFuel mdpMarker.data (v.data.length + 1) v.data).map
        String.mk := by
  unfold strSplitOn
  rw [if_neg (by decide)]

/-- The containment test of `get_mdp_name` agrees with the claim's
containment test. -/
theorem contains_marker_iff (v : String) :
    (2 ≤ (strSplitOn v mdpMarker).length) ↔
      (suffixAfterFirst mdpMarker.data v.data).isSome = true := by
  rw [strSplitOn_mdp, List.length_map]
  exact listSplitOnFuel_two_iff mdpMarker.data (v.data.length + 1) v.data
    (Nat.lt_succ_self _)

/-- The two scan predicates are equal as Boolean functions. -/
theorem marker_pred_eq :
    (fun value => decide (2 ≤ (strSplitOn value mdpMarker).length)) =
      (fun v => (suffixAfterFirst mdpMarker.data v.data).isSome) := by
  funext v
  rcases hb : (suffixAfterFirst mdpMarker.data v.data).isSome with _ | _
  · simp [contains_marker_iff, hb]
  · simp [contains_marker_iff, hb]

/-- C9 amended: `get_mdp_name` scans the labels in list order for the
first one containing the marker and returns Python's
`label.split("ManagedDevOps.Pool=")[1]` — the piece strictly between
the first and the second occurrence of the marker.  When the first
matching label contains the marker exactly once (a two-field split),
this is precisely the claim's "substring after the marker"
(`poolNameSpec`); with no matching label both return the empty
string. -/
theorem get_mdp_name_single_occurrence (labels : List String) :
    (∀ v, labels.find?
        (fun value => 2 ≤ (strSplitOn value mdpMarker).length) = some v →
      (strSplitOn v mdpMarker).length = 2 →
      get_mdp_name labels = poolNameSpec labels) ∧
    (labels.find?
        (fun value => 2 ≤ (strSplitOn value mdpMarker).length) = none →
      get_mdp_name labels = "" ∧ poolNameSpec labels = "") := by
  constructor
  · intro v hfind hlen
    have hfind' : labels.find?
        (fun v => (suffixAfterFirst mdpMarker.data v.data).isSome) = some v := by
      rw [← marker_pred_eq]
      exact hfind
    have hbase : (listSplitOnFuel mdpMarker.data (v.data.length + 1)
        v.data).length = 2 := by
      have := hlen
      rw [strSplitOn_mdp, List.length_map] at this
      exact this
    rcases List.length_eq_two.mp hbase with ⟨a, b, hab⟩
    have hsuffix : suffixAfterFirst mdpMarker.data v.data = some b :=
      listSplitOnFuel_pair mdpMarker.data (v.data.length + 1) v.data a b hab
    unfold get_mdp_name poolNameSpec
    rw [hfind, hfind']
    show (strSplitOn v mdpMarker).getD 1 "" =
      (match suffixAfterFirst mdpMarker.data v.data with
       | some suffix => String.mk suffix
       | none => "")
    rw [hsuffix, strSplitOn_mdp, hab]
    rfl
  · intro hfind
    have hfind' : labels.find?
        (fun v => (suffixAfterFirst mdpMarker.data v.data).isSome) = none := by
      rw [← marker_pred_eq]
      exact hfind
    unfold get_mdp_name poolNameSpec
    rw [hfind, hfind']
    exact ⟨rfl, rfl⟩

/-- C9 counterexample: on a label containing the marker twice, Python's
`split(marker)[1]` stops at the second occurrence, so `get_mdp_name`
returns `"a"` while the claim's "substring after the marker" is
`"aManagedDevOps.Pool=b"`. -/
theorem get_mdp_name_double_marker :
    get_mdp_name ["ManagedDevOps.Pool=aManagedDevOps.Pool=b"] = "a" ∧
    poolNameSpec ["ManagedDevOps.Pool=aManagedDevOps.Pool=b"] =
      "aManagedDevOps.Pool=b" ∧
    get_mdp_name ["ManagedDevOps.Pool=aManagedDevOps.Pool=b"] ≠
      poolNameSpec ["ManagedDevOps.Pool=aManagedDevOps.Pool=b"] := by
  refine ⟨by rfl, by rfl, by decide⟩

/-- Labels whose single matching entry contains the marker once. -/
def mdpLabels : List String := ["self-hosted", "ManagedDevOps.Pool=myPool"]

/-- C9 witness: on `mdpLabels` the code and the claim's reading agree
and both extract `"myPool"`. -/
theorem get_mdp_name_witness :
    get_mdp_name mdpLabels = poolNameSpec mdpLabels ∧
    get_mdp_name mdpLabels = "myPool" :=
  ⟨(get_mdp_name_single_occurrence mdpLabels).1 "ManagedDevOps.Pool=myPool"
    (by rfl) (by rfl), by rfl⟩

/-- Folding further observations into an existing entry under one name. -/
def entryFold (attrs : List (String × String)) (e : AggEntry)
    (vs : List ℚ) : AggEntry :=
  vs.foldl (fun e v => observeEntry (some e) v attrs) e

/-- Observing under a single name reduces the keyed aggregator to the
entry-level fold. -/
theorem observeSeq_single (name : String) (attrs : List (String × String)) :
    ∀ (vs : List ℚ) (e : AggEntry),
      vs.foldl (fun agg v => aggObserve agg name v attrs) [(name, e)] =
        [(name, entryFold attrs e vs)] := by
  intro vs
  induction vs with
  | nil => intro e; rfl
  | cons w ws ih =>
    intro e
    have hstep : aggObserve [(name, e)] name w attrs =
        [(name, observeEntry (some e) w attrs)] := by
      simp [aggObserve]
    calc (w :: ws).foldl (fun agg v => aggObserve agg name v attrs)
          [(name, e)]
        = ws.foldl (fun agg v => aggObserve agg name v attrs)
            (aggObserve [(name, e)] name w attrs) := rfl
      _ = ws.foldl (fun agg v => aggObserve agg name v attrs)
            [(name, observeEntry (some e) w attrs)] := by rw [hstep]
      _ = [(name, entryFold attrs (observeEntry (some e) w attrs) ws)] :=
            ih _
      _ = [(name, entryFold attrs e (w :: ws))] := rfl

/-- Statistics maintained by the entry-level fold: count, sum, running
min/max, the stored value list, and the running-mean invariant. -/
theorem entryFold_stats (attrs : List (String × String)) :
    ∀ (vs : List ℚ) (e : AggEntry),
      (entryFold attrs e vs).count = e.count + vs.length ∧
      (entryFold attrs e vs).sum = e.sum + vs.sum ∧
      (entryFold attrs e vs).min = vs.foldl min e.min ∧
      (entryFold attrs e vs).max = vs.foldl max e.max ∧
      (entryFold attrs e vs).values = e.values ++ vs ∧
      (e.representative_value = e.sum / e.count →
        (entryFold attrs e vs).representative_value =
          (entryFold attrs e vs).sum / (entryFold attrs e vs).count) := by
  intro vs
  induction vs with
  | nil =>
    intro e
    refine ⟨by simp [entryFold], by simp [entryFold], rfl, rfl,
      by simp [entryFold], fun h => h⟩
  | cons w ws ih =>
    intro e
    have h := ih (observeEntry (some e) w attrs)
    have hrep : (observeEntry (some e) w attrs).representative_value =
        (observeEntry (some e) w attrs).sum /
          (observeEntry (some e) w attrs).count := rfl
    refine ⟨?_, ?_, h.2.2.1, h.2.2.2.1, ?_, fun _ => h.2.2.2.2.2 hrep⟩
    · show (entryFold attrs (observeEntry (some e) w attrs) ws).count =
        e.count + (w :: ws).length
      rw [h.1]
      show e.count + 1 + ws.length = e.count + (ws.length + 1)
      omega
    · show (entryFold attrs (observeEntry (some e) w attrs) ws).sum =
        e.sum + (w :: ws).sum
      rw [h.2.1]
      show e.sum + w + ws.sum = e.sum + (w + ws.sum)
      ring
    · show (entryFold attrs (observeEntry (some e) w attrs) ws).values =
        e.values ++ (w :: ws)
      rw [h.2.2.2.2.1]
      show e.values ++ [w] ++ ws = e.values ++ (w :: ws)
      simp

/-- C10 (Metric Aggregator, modelled from spec §4.4): observing a
non-empty same-name sequence initializes the entry from the first value
and folds each further value into min/max/sum/count with the
representative value kept equal to the running mean `sum / count`; in
particular observing `[10, 30, 20]` under one name yields `min = 10`,
`max = 30`, `sum = 60`, `count = 3` and `representative_value = 20`. -/
theorem metric_aggregator_running_stats (name : String)
    (attrs : List (String × String)) (v : ℚ) (vs : List ℚ) :
    (∃ e, (observeSeq name attrs (v :: vs)).lookup name = some e ∧
      e.count = vs.length + 1 ∧
      e.sum = v + vs.sum ∧
      e.min = vs.foldl min v ∧
      e.max = vs.foldl max v ∧
      e.representative_value = e.sum / e.count ∧
      e.values = v :: vs) ∧
    (observeSeq "duration_seconds" [] [10, 30, 20]).lookup
      "duration_seconds" =
      some ⟨10, 30, 60, 3, 20, [10, 30, 20], []⟩ := by
  constructor
  · have hseq : observeSeq name attrs (v :: vs) =
        [(name, entryFold attrs (observeEntry none v attrs) vs)] := by
      unfold observeSeq
      calc (v :: vs).foldl (fun agg w => aggObserve agg name w attrs) []
          = vs.foldl (fun agg w => aggObserve agg name w attrs)
              [(name, observeEntry none v attrs)] := rfl
        _ = [(name, entryFold attrs (observeEntry none v attrs) vs)] :=
              observeSeq_single name attrs vs _
    have hstats := entryFold_stats attrs vs (observeEntry none v attrs)
    refine ⟨entryFold attrs (observeEntry none v attrs) vs,
      by simp [hseq], ?_, ?_, ?_, ?_, ?_, ?_⟩
    · rw [hstats.1]
      show 1 + vs.length = vs.length + 1
      omega
    · rw [hstats.2.1]; rfl
    · rw [hstats.2.2.1]; rfl
    · rw [hstats.2.2.2.1]; rfl
    · exact hstats.2.2.2.2.2 (by simp [observeEntry])
    · rw [hstats.2.2.2.2.1]; rfl
  · simp only [observeSeq, List.foldl, aggObserve, observeEntry]
    norm_num [List.lookup, min_def, max_def]

/-- Big-endian serialization produces exactly `count` bytes. -/
theorem natToBytesBE_length (count v : Nat) :
    (natToBytesBE count v).length = count := by
  induction count generalizing v with
  | zero => rfl
  | succ n ih => simp [natToBytesBE, ih]

/-- The serialized chaining state is 32 bytes. -/
theorem stateBytes_length (st : Sha256State) :
    (stateBytes st).length = 32 := by
  simp [stateBytes, natToBytesBE_length]

/-- A SHA-256 digest is 32 bytes. -/
theorem sha256_length (msg : List Nat) : (sha256 msg).length = 32 := by
  unfold sha256
  exact stateBytes_length _

/-- A hex rendering has two characters per byte. -/
theorem hexStr_length (l : List Nat) :
    (hexStr l).length = 2 * l.length := by
  induction l with
  | nil => rfl
  | cons b t ih =>
    show (byteToHex b ++ hexStr t).length = 2 * (t.length + 1)
    rw [String.length_append, ih]
    show 2 + 2 * t.length = 2 * (t.length + 1)
    ring

/-- The derived trace identity is a fixed-width 32-character string. -/
theorem generate_trace_id_length (s : String) :
    (generate_trace_id s).length = 32 := by
  unfold generate_trace_id
  rw [hexStr_length, List.length_take, sha256_length]
  rfl

/-- The trace identities of the spans in a backend emission list. -/
def spanTraceIds (out : List BEmission) : List String :=
  out.filterMap (fun e => match e with
    | .span _ t _ _ _ => some t
    | _ => none)

/-- Every span `_send_job_telemetry` emits carries the trace identity
derived from the metrics' `workflow_run_id`. -/
theorem mem_spanTraceIds_send_job (m : JobMetrics) (t : String)
    (ht : t ∈ spanTraceIds (send_job_telemetry m)) :
    t = generate_trace_id (toString m.workflow_run_id) := by
  unfold spanTraceIds at ht
  rcases List.mem_filterMap.mp ht with ⟨e, he, hsome⟩
  unfold send_job_telemetry at he
  simp only [List.mem_append] at he
  rcases he with (hstep | hmid) | hmet
  · rcases List.mem_flatten.mp hstep with ⟨l, hl, hel⟩
    rcases List.mem_map.mp hl with ⟨step, _, hleq⟩
    rw [← hleq] at hel
    unfold stepEmissions at hel
    rcases hss : step.started_at with _ | s <;>
      rcases hcc : step.completed_at with _ | c <;>
      rw [hss, hcc] at hel <;> simp at hel
    rcases hel with rfl | rfl
    · simp at hsome
      exact hsome.symm
    · simp at hsome
  · simp at hmid
    rcases hmid with rfl | rfl <;> simp at hsome <;> exact hsome.symm
  · rcases hd : m.duration_seconds with _ | d <;> rw [hd] at hmet <;>
      simp at hmet
    rw [hmet] at hsome
    simp at hsome

/-- The job span is among the emissions. -/
theorem jobSpan_mem_send_job (m : JobMetrics) :
    BEmission.span (jobSpanName m)
      (generate_trace_id (toString m.workflow_run_id))
      (some (workflowSpanName m)) (jobSpanProperties m)
      (jobSpanMeasurements m) ∈ send_job_telemetry m := by
  unfold send_job_telemetry
  simp

/-- C8: in hierarchical span mode the trace identity is a deterministic
function of `workflow_run_id` alone — every span export of
`_send_job_telemetry` carries `_generate_trace_id(str(workflow_run_id))`,
a fixed-width 32-character hex hash of the id's string form — so any two
emission batches for the same `workflow_run_id` (e.g. two independent
job events of one run) agree on every trace identity; the span list is
never empty, so the statement is not vacuous. -/
theorem hierarchical_trace_identity (m1 m2 : JobMetrics)
    (h : m1.workflow_run_id = m2.workflow_run_id) :
    spanTraceIds (send_job_telemetry m1) ≠ [] ∧
    (∀ t ∈ spanTraceIds (send_job_telemetry m1),
      t = generate_trace_id (toString m1.workflow_run_id) ∧
      t.length = 32) ∧
    (∀ t1 ∈ spanTraceIds (send_job_telemetry m1),
      ∀ t2 ∈ spanTraceIds (send_job_telemetry m2), t1 = t2) := by
  refine ⟨?_, ?_, ?_⟩
  · apply List.ne_nil_of_mem
    exact List.mem_filterMap.mpr ⟨_, jobSpan_mem_send_job m1, rfl⟩
  · intro t ht
    have := mem_spanTraceIds_send_job m1 t ht
    exact ⟨this, by rw [this, generate_trace_id_length]⟩
  · intro t1 ht1 t2 ht2
    rw [mem_spanTraceIds_send_job m1 t1 ht1,
        mem_spanTraceIds_send_job m2 t2 ht2, h]

/-- Two job metrics of different jobs belonging to one workflow run. -/
def jmA : JobMetrics :=
  { job_id := 1, job_name := "build", workflow_run_id := 555,
    workflow_name := "CI", repository_id := 1, repository_name := "repo",
    repository_full_name := "org/repo", status := "completed",
    event_type := "workflow_job", action := "completed",
    processed_at := 0 }

/-- Second job metrics for the same run. -/
def jmB : JobMetrics :=
  { job_id := 2, job_name := "test", workflow_run_id := 555,
    workflow_name := "CI", repository_id := 1, repository_name := "repo",
    repository_full_name := "org/repo", status := "completed",
    event_type := "workflow_job", action := "completed",
    processed_at := 7 }

/-- C8 witness: the two concrete emission batches `jmA`/`jmB` (same
`workflow_run_id = 555`, different jobs and arrival times) have
non-empty span lists agreeing on every trace identity, each of length
32. -/
theorem hierarchical_trace_identity_witness :
    spanTraceIds (send_job_telemetry jmA) ≠ [] ∧
    (∀ t1 ∈ spanTraceIds (send_job_telemetry jmA),
      ∀ t2 ∈ spanTraceIds (send_job_telemetry jmB), t1 = t2) ∧
    (∀ t ∈ spanTraceIds (send_job_telemetry jmA), t.length = 32) := by
  have h := hierarchical_trace_identity jmA jmB rfl
  exact ⟨h.1, h.2.2, fun t ht => (h.2.1 t ht).2⟩
